import Mathlib

/-!
Verification of `excel_to_html_converter.py` (toukei repository).

This file gives a shallow embedding of the converter: the loader
(`read_excel_data`), the cell formatter (`format_number`), the renderer
(`generate_html`) and the CLI entry point (`main`), together with theorems
about the properties stated in the specification.

Modelling conventions:
* Python numbers (int / float cell values) are modelled as exact integers
  and rationals; `%.1f`-style rounding is modelled as round-half-to-even.
* Impure inputs (the current date strings interpolated into the static
  header, the filesystem-existence test of the CLI) are passed as explicit
  parameters.
* Python `IndexError` (e.g. `years[0]` on an empty list) is modelled by
  returning `none` in the `Option` monad.
-/

set_option maxRecDepth 10000

namespace Toukei

/-- Boolean prefix test on character lists (executable counterpart of
`List.IsPrefix`, used to model Python's `str.startswith`-like checks). -/
def chPre : List Char → List Char → Bool
  | [], _ => true
  | _ :: _, [] => false
  | a :: as, b :: bs => if a = b then chPre as bs else false

/-- Boolean infix test on character lists: does `needle` occur contiguously
inside the second list?  Executable counterpart of `List.IsInfix`. -/
def chInfx (needle : List Char) : List Char → Bool
  | [] => chPre needle []
  | b :: bs => chPre needle (b :: bs) || chInfx needle bs

/-- Python's substring containment `needle in hay` on strings. -/
def containsSub (hay needle : String) : Bool := chInfx needle.data hay.data

/-- Does the string `s` start with the string `p`? -/
def strStartsWith (s p : String) : Bool := chPre p.data s.data

/-- Decimal digits of `n`, least-significant first, with fuel (the fuel
`n + 1` used in `natDigitsRev` always suffices, since `n / 10 < n`). -/
def natDigitsRevAux : Nat → Nat → List Char
  | 0, _ => []
  | fuel + 1, n =>
    if n < 10 then [Nat.digitChar n]
    else Nat.digitChar (n % 10) :: natDigitsRevAux fuel (n / 10)

/-- Decimal digits of `n`, least-significant first. -/
def natDigitsRev (n : Nat) : List Char := natDigitsRevAux (n + 1) n

/-- Plain decimal rendering of a natural number (no separators). -/
def natStr (n : Nat) : String := String.mk (natDigitsRev n).reverse

/-- Plain decimal rendering of an integer (no separators). -/
def intStr (i : ℤ) : String :=
  if i < 0 then "-" ++ natStr i.natAbs else natStr i.natAbs

/-- Insert a `,` after every three characters of a least-significant-first
digit list: this realises, on the reversed digit string, the thousands
grouping of Python's `f"{n:,}"` format. -/
def groupChunksRev : List Char → List Char
  | a :: b :: c :: d :: rest => a :: b :: c :: ',' :: groupChunksRev (d :: rest)
  | l => l

/-- Python's `f"{n:,}"` on a natural number: decimal digits with a `,`
between every group of three, counted from the right. -/
def groupNat (n : Nat) : String :=
  String.mk (groupChunksRev (natDigitsRev n)).reverse

/-- Python's `f"{i:,}"` on an integer. -/
def fmtInt (i : ℤ) : String :=
  if i < 0 then "-" ++ groupNat i.natAbs else groupNat i.natAbs

/-- Product of two rationals, written with `mkRat` so that the kernel can
evaluate it (the library `Rat.mul` is irreducible); the value agrees with
ordinary rational multiplication. -/
def ratMul (a b : ℚ) : ℚ := mkRat (a.num * b.num) (a.den * b.den)

/-- Difference of two rationals, written with `mkRat` (see `ratMul`). -/
def ratSub (a b : ℚ) : ℚ := mkRat (a.num * b.den - b.num * a.den) (a.den * b.den)

/-- Negation of a rational, written with `mkRat` (see `ratMul`). -/
def ratNeg (a : ℚ) : ℚ := mkRat (-a.num) a.den

/-- Absolute value of a rational (kernel-reducible core operations only). -/
def ratAbs (q : ℚ) : ℚ := if q.num < 0 then ratNeg q else q

/-- Round a rational to the nearest integer, ties to even: the rounding used
by Python's fixed-point float formatting. -/
def roundHalfEven (q : ℚ) : ℤ :=
  let f := q.floor
  let r := ratSub q (mkRat f 1)
  if Rat.blt r (mkRat 1 2) then f
  else if Rat.blt (mkRat 1 2) r then f + 1
  else if f % 2 = 0 then f else f + 1

/-- Python's `f"{x:,.1f}"`: grouped digits, one decimal digit, rounding to
one place (half-to-even), sign preserved. -/
def fmtOneDec (q : ℚ) : String :=
  let sign := if q.num < 0 then "-" else ""
  let n := (roundHalfEven (ratMul (mkRat 10 1) (ratAbs q))).toNat
  sign ++ groupNat (n / 10) ++ "." ++ String.singleton (Nat.digitChar (n % 10))

/-- The branch of `format_number` taken after a successful `float(...)`
conversion (source lines 86-90): integral values are grouped with no decimal
part, non-integral values are grouped with exactly one decimal digit. -/
def fmtParsed (q : ℚ) : String :=
  if q.den = 1 then fmtInt q.num else fmtOneDec q

/-- A spreadsheet cell value as returned by openpyxl: empty (`None`),
a string, an int, or a float (floats modelled as exact rationals). -/
inductive CellValue where
  | vnone
  | vstr (s : String)
  | vint (i : ℤ)
  | vfloat (q : ℚ)
  deriving DecidableEq

/-- Python truthiness of a cell value (`if not pref_name`, `if year_value`):
`None`, the empty string and numeric zero are falsy. -/
def truthy : CellValue → Bool
  | .vnone => false
  | .vstr s => decide (s ≠ "")
  | .vint i => decide (i ≠ 0)
  | .vfloat q => decide (q ≠ 0)

/-- Value of a list of decimal digit characters, most-significant first. -/
def digitsToNat (l : List Char) : Nat :=
  l.foldl (fun a c => a * 10 + (c.toNat - 48)) 0

/-- Decimal expansion digits of a rational `0 ≤ q < 1`, with fuel.  A Python
float is a dyadic rational, whose expansion is finite and far shorter than
the fuel used below. -/
def fracDigitsAux : Nat → ℚ → List Char
  | 0, _ => []
  | fuel + 1, q =>
    if q = 0 then []
    else
      let q10 := ratMul q (mkRat 10 1)
      Nat.digitChar (Int.toNat q10.floor) :: fracDigitsAux fuel (ratSub q10 (mkRat q10.floor 1))

/-- Python's `str()` on a float: sign, integer part, `.`, fractional digits
(`.0` when the value is integral).  Exact-decimal model of `repr(float)`. -/
def floatStr (q : ℚ) : String :=
  let sign := if q.num < 0 then "-" else ""
  let a := ratAbs q
  let ip := (a.floor).toNat
  let ds := fracDigitsAux 1200 (ratSub a (mkRat a.floor 1))
  sign ++ natStr ip ++ "." ++ (if ds.isEmpty then "0" else String.mk ds)

/-- Python's `str()` of a cell value, as used for `str(pref_name)`,
`str(year_value)` and `str(value)` in the source. -/
def pyStr : CellValue → String
  | .vnone => "None"
  | .vstr s => s
  | .vint i => intStr i
  | .vfloat q => floatStr q

/-- Model of Python `float(s)` on the string forms the converter meets:
optional surrounding spaces, optional sign, integer digits with an optional
fractional part (exponent forms are out of the converter's input domain and
are not modelled).  Returns `none` when Python would raise `ValueError`. -/
def parsePyFloat (s : String) : Option ℚ :=
  let cs := (s.data.dropWhile (· = ' ')).reverse.dropWhile (· = ' ') |>.reverse
  let signed : Bool × List Char :=
    match cs with
    | '-' :: t => (true, t)
    | '+' :: t => (false, t)
    | t => (false, t)
  let body := signed.2
  let ip := body.takeWhile Char.isDigit
  let rest := body.dropWhile Char.isDigit
  let val? : Option ℚ :=
    match rest with
    | [] => if ip.isEmpty then none else some (mkRat (digitsToNat ip) 1)
    | '.' :: frac =>
      let fp := frac.takeWhile Char.isDigit
      let rest2 := frac.dropWhile Char.isDigit
      if rest2.isEmpty && !(ip.isEmpty && fp.isEmpty) then
        some (mkRat (digitsToNat ip * 10 ^ fp.length + digitsToNat fp) (10 ^ fp.length))
      else none
    | _ => none
  val?.map (fun v => if signed.1 then ratNeg v else v)

/-- Python's `str.replace(',', '')`: remove every comma. -/
def stripCommas (s : String) : String := String.mk (s.data.filter (· ≠ ','))

/-- Embedding of `format_number` (source lines 69-93).  The placeholder
`－`, the empty string and `None` short-circuit to `－`; otherwise the value
is parsed as a number after stripping `,` (for int/float cells,
`float(str(value).replace(',',''))` recovers the value itself) and formatted
by `fmtParsed`; unparsable strings pass through unchanged. -/
def format_number : CellValue → String
  | .vnone => "－"
  | .vstr s =>
    if s = "－" ∨ s = "" then "－"
    else
      match parsePyFloat (stripCommas s) with
      | some q => fmtParsed q
      | none => s
  | .vint i => fmtParsed (mkRat i 1)
  | .vfloat q => fmtParsed q

/-- A worksheet as openpyxl presents it: the declared extents `max_row` and
`max_column`, and a row-major grid of cells; `cell r c` (1-indexed) is the
cell's value, `vnone` for a missing cell. -/
structure Worksheet where
  maxRow : Nat
  maxCol : Nat
  cells : List (List CellValue)
  deriving DecidableEq

/-- `ws.cell(r, c)` of openpyxl (1-indexed; absent cells are `None`). -/
def Worksheet.cell (ws : Worksheet) (r c : Nat) : CellValue :=
  (ws.cells.getD (r - 1) []).getD (c - 1) .vnone

/-- The per-sheet record built by `read_excel_data`:
`{'years': ..., 'prefectures': ..., 'total': ...}`. -/
structure SheetData where
  years : List String
  prefectures : List (CellValue × List String)
  total : Option (List String)
  deriving DecidableEq

/-- Python equality on cell values, used for dict keys (`None == None`,
numeric cross-type equality `1 == 1.0`, strings by content). -/
def pyEq (a b : CellValue) : Bool :=
  match a, b with
  | .vnone, .vnone => true
  | .vstr s, .vstr t => decide (s = t)
  | .vint i, .vint j => decide (i = j)
  | .vfloat p, .vfloat q => decide (p = q)
  | .vint i, .vfloat q => decide (mkRat i 1 = q)
  | .vfloat q, .vint i => decide (q = mkRat i 1)
  | _, _ => false

/-- Python dict insertion `d[k] = v`: an existing key keeps its position and
gets the new value, a new key is appended. -/
def dictInsert (k : CellValue) (v : List String)
    : List (CellValue × List String) → List (CellValue × List String)
  | [] => [(k, v)]
  | (k2, v2) :: rest =>
    if pyEq k2 k then (k2, v) :: rest else (k2, v2) :: dictInsert k v rest

/-- Lines 131-135 of the source: a `None` or empty-string data cell becomes
the placeholder `－`, anything else goes through `format_number`. -/
def cellFormat (v : CellValue) : String :=
  if v = .vnone ∨ v = .vstr "" then "－" else format_number v

/-- The value sequence extracted for body row `r`: columns
`2 .. max_column` in order (source lines 127-135). -/
def rowValues (ws : Worksheet) (r : Nat) : List String :=
  (List.range' 2 (ws.maxCol - 1)).map (fun c => cellFormat (ws.cell r c))

/-- Line 138 of the source: does the first-column label contain either
"total" marker substring (`総計` / `合計`)? -/
def isTotalLabel (v : CellValue) : Bool :=
  containsSub (pyStr v) "総計" || containsSub (pyStr v) "合計"

/-- The body-row loop of `read_excel_data` (source lines 121-141), with the
accumulated `prefectures` dict and `total_row` made explicit.  Rows with a
falsy first-column cell are skipped; a row whose label matches
`isTotalLabel` overwrites `total_row`, any other row is inserted into the
dict. -/
def readRowsAux (ws : Worksheet) :
    List Nat → List (CellValue × List String) → Option (List String) →
    List (CellValue × List String) × Option (List String)
  | [], prefs, total => (prefs, total)
  | r :: rest, prefs, total =>
    let prefName := ws.cell r 1
    if truthy prefName = false then readRowsAux ws rest prefs total
    else
      let rowData := rowValues ws r
      if isTotalLabel prefName then readRowsAux ws rest prefs (some rowData)
      else readRowsAux ws rest (dictInsert prefName rowData prefs) total

/-- The header-row extraction of `read_excel_data` (source lines 111-115):
the string forms of the truthy cells of row 1, columns `2 .. max_column`. -/
def sheetYears (ws : Worksheet) : List String :=
  (List.range' 2 (ws.maxCol - 1)).filterMap
    (fun c => if truthy (ws.cell 1 c) then some (pyStr (ws.cell 1 c)) else none)

/-- `read_excel_data`, per sheet (source lines 107-147). -/
def readSheet (ws : Worksheet) : SheetData :=
  let rt := readRowsAux ws (List.range' 2 (ws.maxRow - 1)) [] none
  { years := sheetYears ws, prefectures := rt.1, total := rt.2 }

/-- `read_excel_data` over a whole workbook: one record per sheet, in the
workbook's sheet order (source lines 96-150). -/
def read_excel_data (wb : List (String × Worksheet)) : List (String × SheetData) :=
  wb.map (fun s => (s.1, readSheet s.2))

/-- The body rows the loop actually extracts, in order: label (first-column
cell) and value sequence of every row with a truthy first-column cell.  Used
to state what `readRowsAux` computes. -/
def extractedRows (ws : Worksheet) (rs : List Nat) : List (CellValue × List String) :=
  rs.filterMap (fun r =>
    if truthy (ws.cell r 1) then some (ws.cell r 1, rowValues ws r) else none)

/-- The static document shell of `generate_html` (source lines 161-436):
head, stylesheet, navigation, titles and informational block, with the
interpolated title, subtitle and date strings as parameters (`jdate` stands
for `format_japanese_date()`, `nendoWa` and `nendo` for the two
`datetime.now().strftime` interpolations). -/
def htmlHead (pageTitle pageSubtitle jdate nendoWa nendo : String) : String :=
  "<!DOCTYPE html>\n<html lang=\"ja\">\n<head>\n    <meta charset=\"UTF-8\">\n    <meta name=\"viewport\" content=\"width=device-width, initial-scale=1.0\">\n    <title>" ++ pageTitle ++ "</title>\n    <style>\n        * \x7b\n            margin: 0;\n            padding: 0;\n            box-sizing: border-box;\n        \x7d\n        \n        body \x7b\n            font-family: \x27Hiragino Sans\x27, \x27Hiragino Kaku Gothic ProN\x27, \x27Noto Sans JP\x27, \x27Yu Gothic\x27, \x27Meiryo\x27, sans-serif;\n            line-height: 1.6;\n            color: #333;\n            background-color: #f5f5f5;\n            padding: 20px;\n            scroll-behavior: smooth;\n        \x7d\n        \n        .container \x7b\n            max-width: 1400px;\n            margin: 0 auto;\n            background-color: white;\n            padding: 30px;\n            box-shadow: 0 2px 4px rgba(0,0,0,0.1);\n        \x7d\n        \n        .main-nav \x7b\n            text-align: center;\n            padding: 5px 0;\n            margin-bottom: 15px;\n            font-size: 11px;\n            color: #666;\n        \x7d\n        \n        .main-nav a \x7b\n            color: #666;\n            text-decoration: none;\n            margin: 0 10px;\n        \x7d\n        \n        .main-nav a:hover \x7b\n            color: #0066cc;\n            text-decoration: underline;\n        \x7d\n        \n        h1 \x7b\n            color: #0066cc;\n            margin-bottom: 10px;\n            font-size: 28px;\n            text-align: left;\n        \x7d\n        \n        .subtitle \x7b\n            text-align: left;\n            color: #666;\n            margin-bottom: 20px;\n            font-size: 16px;\n        \x7d\n        \n        .cross-nav \x7b\n            text-align: left;\n            padding: 10px;\n            background-color: #f0f0f0;\n            margin-bottom: 20px;\n            border-radius: 4px;\n        \x7d\n        \n        .cross-nav a \x7b\n            color: #0066cc;\n            text-decoration: none;\n            margin: 0 15px;\n            font-size: 14px;\n        \x7d\n        \n        .cross-nav a:hover \x7b\n            text-decoration: underline;\n        \x7d\n        \n        .info-section \x7b\n            background-color: #e8f4f8;\n            padding: 15px;\n            margin-bottom: 20px;\n            border-left: 4px solid #0066cc;\n            font-size: 14px;\n        \x7d\n        \n        .info-section p \x7b\n            margin: 5px 0;\n        \x7d\n        \n        .tabs \x7b\n            display: flex;\n            gap: 5px;\n            margin-bottom: 20px;\n            border-bottom: 2px solid #0066cc;\n        \x7d\n        \n        .tab \x7b\n            padding: 10px 20px;\n            background-color: #f0f0f0;\n            border: none;\n            cursor: pointer;\n            font-size: 16px;\n            transition: all 0.3s;\n            border-radius: 4px 4px 0 0;\n        \x7d\n        \n"
  ++ "        .tab:hover \x7b\n            background-color: #e0e0e0;\n        \x7d\n        \n        .tab.active \x7b\n            background-color: #0066cc;\n            color: white;\n        \x7d\n        \n        .tab-content \x7b\n            display: none;\n        \x7d\n        \n        .tab-content.active \x7b\n            display: block;\n        \x7d\n        \n        .table-wrapper \x7b\n            overflow-x: auto;\n            overflow-y: auto;\n            max-height: 600px;\n            margin-top: 20px;\n            border: 1px solid #ddd;\n            border-radius: 4px;\n        \x7d\n        \n        table \x7b\n            width: 100%;\n            border-collapse: collapse;\n            font-size: 14px;\n        \x7d\n        \n        th, td \x7b\n            padding: 12px 8px;\n            text-align: right;\n            border: 1px solid #ddd;\n        \x7d\n        \n        th \x7b\n            background-color: #0066cc;\n            color: white;\n            font-weight: bold;\n            position: sticky;\n            top: 0;\n            z-index: 10;\n            text-align: center;\n        \x7d\n        \n        th:first-child, td:first-child \x7b\n            text-align: left;\n            position: sticky;\n            left: 0;\n            background-color: white;\n            z-index: 5;\n        \x7d\n        \n        th:first-child \x7b\n            z-index: 15;\n            background-color: #0066cc;\n        \x7d\n        \n        tr:nth-child(even) \x7b\n            background-color: #f9f9f9;\n        \x7d\n        \n        tr:hover \x7b\n            background-color: #f0f8ff;\n        \x7d\n        \n        /* 総計行のスタイル (Total row style) */\n        tr.total-row \x7b\n            background-color: #d4edda !important;\n            font-weight: bold;\n            border-top: 2px solid #28a745;\n            border-bottom: 2px solid #28a745;\n        \x7d\n        \n        tr.total-row td \x7b\n            color: #000;\n        \x7d\n        \n        /* 計列のスタイル (Total column style) */\n        th.total-col \x7b\n            background-color: #0066cc;\n            color: white;\n            border-left: 2px solid #0066cc;\n            border-right: 2px solid #0066cc;\n        \x7d\n        \n        td.total-col \x7b\n            background-color: #cce5ff;\n            font-weight: bold;\n            border-left: 2px solid #0066cc;\n            border-right: 2px solid #0066cc;\n        \x7d\n        \n        /* 総計行と計列の交差セル (Intersection cell) */\n        tr.total-row td.total-col \x7b\n            background-color: #0066cc;\n            color: white;\n        \x7d\n        \n        @media (max-width: 768px) \x7b\n            body \x7b\n                padding: 10px;\n            \x7d\n            \n            .container \x7b\n                padding: 15px;\n            \x7d\n            \n            h1 \x7b\n                font-size: 22px;\n            \x7d\n            \n            table \x7b\n"
  ++ "                font-size: 12px;\n            \x7d\n            \n            th, td \x7b\n                padding: 8px 4px;\n            \x7d\n        \x7d\n        \n        @media (max-width: 480px) \x7b\n            table \x7b\n                font-size: 11px;\n            \x7d\n            \n            th, td \x7b\n                padding: 6px 3px;\n            \x7d\n        \x7d\n    </style>\n</head>\n<body>\n    <div class=\"container\">\n        <!-- メインナビゲーション (Main Navigation) -->\n        <div class=\"main-nav\">\n            <a href=\"https://www.cev-pc.or.jp/\">HOME</a> | \n            <a href=\"/tokei/hoyuudaisu.html\">EV等 保有台数統計</a> | \n            <a href=\"/tokei/hanbaidaisu.html\">EV等 販売台数統計</a>\n        </div>\n        \n        <h1>" ++ pageTitle ++ "</h1>\n        <div class=\"subtitle\">" ++ pageSubtitle ++ "</div>\n        \n        <!-- クロスページナビゲーション (Cross-page Navigation) -->\n        <div class=\"cross-nav\" id=\"cross-nav\">\n            <!-- Will be filled by JavaScript based on current page -->\n        </div>\n        \n        <div class=\"info-section\">\n            <p>○ " ++ jdate ++ " 次世代自動車振興センター</p>\n            <p>○ " ++ nendoWa ++ " " ++ jdate ++ " までの集計です</p>\n            <p>※" ++ nendo ++ "の補助金交付台数等については、現在審査中のものもあるため、" ++ jdate ++ "現在の数値であり、第6次公募締切（予定）までの最終的な数値ではありません。</p>\n            <p>※ここで使用されている数字について</p>\n            <p>※※FCV（燃料電池自動車）の交付台数は2014年からの集計です</p>\n            <p>※※外部給電器と原付EVの交付台数は2020年からの集計です</p>\n            <p>※※V2H充放電設備の交付基数は2020年からの集計です</p>\n        </div>\n        \n        <!-- タブ (Tabs) -->\n        <div class=\"tabs\">\n"

/-- The embedded tab-switching / scroll / cross-navigation script and the
closing tags appended by `generate_html` (source lines 501-554). -/
def scriptTail : String :=
  "        <script>\n            // タブ切り替え関数 (Tab switching function)\n            function showTab(evt, tabName) \x7b\n                var i, tabcontent, tabbuttons;\n                \n                // すべてのタブコンテンツを非表示 (Hide all tab content)\n                tabcontent = document.getElementsByClassName(\"tab-content\");\n                for (i = 0; i < tabcontent.length; i++) \x7b\n                    tabcontent[i].classList.remove(\"active\");\n                \x7d\n                \n                // すべてのタブボタンを非アクティブ (Deactivate all tab buttons)\n                tabbuttons = document.getElementsByClassName(\"tab\");\n                for (i = 0; i < tabbuttons.length; i++) \x7b\n                    tabbuttons[i].classList.remove(\"active\");\n                \x7d\n                \n                // 選択されたタブを表示 (Show selected tab)\n                document.getElementById(tabName).classList.add(\"active\");\n                evt.currentTarget.classList.add(\"active\");\n                \n                // 合計列までスクロール (Scroll to total column)\n                setTimeout(function() \x7b\n                    var tableWrapper = document.querySelector(\"#\" + tabName + \" .table-wrapper\");\n                    if (tableWrapper) \x7b\n                        tableWrapper.scrollLeft = tableWrapper.scrollWidth;\n                    \x7d\n                \x7d, 100);\n            \x7d\n            \n            // ページロード時に最初のタブの合計列までスクロール (Scroll to total column on page load)\n            window.addEventListener(\x27load\x27, function() \x7b\n                var firstTabContent = document.querySelector(\x27.tab-content.active .table-wrapper\x27);\n                if (firstTabContent) \x7b\n                    firstTabContent.scrollLeft = firstTabContent.scrollWidth;\n                \x7d\n            \x7d);\n            \n            // クロスページナビゲーションを設定 (Set up cross-page navigation)\n            var currentPage = window.location.pathname;\n            var crossNav = document.getElementById(\x27cross-nav\x27);\n            \n            if (currentPage.includes(\x27koufu.html\x27) || currentPage.endsWith(\x27/\x27)) \x7b\n                crossNav.innerHTML = \x27<a href=\"koufu3.html\">充電設備</a> | <a href=\"koufu2.html\">外部給電器（V2L）･V2H充放電設備</a>\x27;\n            \x7d else if (currentPage.includes(\x27koufu2.html\x27)) \x7b\n                crossNav.innerHTML = \x27<a href=\"koufu.html\">EV・PHEV・FCV・原付EV</a> | <a href=\"koufu3.html\">充電設備</a>\x27;\n            \x7d else if (currentPage.includes(\x27koufu3.html\x27)) \x7b\n                crossNav.innerHTML = \x27<a href=\"koufu.html\">EV・PHEV・FCV・原付EV</a> | <a href=\"koufu2.html\">外部給電器（V2L）･V2H充放電設備</a>\x27;\n            \x7d\n        </script>\n    </div>\n</body>\n</html>\n"

/-- One tab button (source line 441): the sheet name is interpolated into
the `onclick` argument and the button text. -/
def renderTabButton (tabName activeClass : String) : String :=
  "            <button class=\"tab " ++ activeClass ++ "\" onclick=\"showTab(event, \x27" ++ tabName ++ "\x27)\">" ++ tabName ++ "</button>\n"

/-- The tab-button loop (source lines 439-441): first button active. -/
def renderTabButtons : Nat → List String → String
  | _, [] => ""
  | i, n :: rest =>
    renderTabButton n (if i = 0 then "active" else "") ++ renderTabButtons (i + 1) rest

/-- The panel opening tag (source line 449): the sheet name is emitted
verbatim as the value of the `id` attribute. -/
def renderPanelOpen (tabName activeClass : String) : String :=
  "        <div id=\"" ++ tabName ++ "\" class=\"tab-content " ++ activeClass ++ "\">\n"

/-- A year-header cell without the aggregate-column class (line 462). -/
def thPlain (year : String) : String :=
  "                            <th>" ++ year ++ "</th>\n"

/-- A year-header cell with the aggregate-column class (line 460). -/
def thTotal (year : String) : String :=
  "                            <th class=\"total-col\">" ++ year ++ "</th>\n"

/-- Year-header rendering (source lines 458-462): the `total-col` class is
applied iff the label equals or contains `計` — a label test, not a
positional one. -/
def renderYearHeader (year : String) : String :=
  if (year = "計") || containsSub year "計" then thTotal year else thPlain year

/-- A body cell without the aggregate-column class (lines 478, 491). -/
def tdPlain (value : String) : String :=
  "                            <td>" ++ value ++ "</td>\n"

/-- A body cell with the aggregate-column class (lines 476, 489). -/
def tdTotal (value : String) : String :=
  "                            <td class=\"total-col\">" ++ value ++ "</td>\n"

/-- The body-cell loop (source lines 473-478, likewise 487-491):
`enumerate(values)` applying the aggregate-column class exactly at index
`len(values) - 1`.  `total` is the frozen `len(values)`. -/
def dataCellsAux (total : Nat) : Nat → List String → List String
  | _, [] => []
  | j, v :: rest =>
    (if j = total - 1 then tdTotal v else tdPlain v) :: dataCellsAux total (j + 1) rest

/-- The list of rendered body cells of one row. -/
def dataCellsList (vals : List String) : List String :=
  dataCellsAux vals.length 0 vals

/-- The concatenated body cells of one row. -/
def renderDataCells (vals : List String) : String := String.join (dataCellsList vals)

/-- One prefecture data row (source lines 469-480). -/
def renderDataRow (prefName : CellValue) (vals : List String) : String :=
  "                        <tr>\n"
  ++ "                            <td>" ++ pyStr prefName ++ "</td>\n"
  ++ renderDataCells vals
  ++ "                        </tr>\n"

/-- The total row (source lines 482-493): rendered only when
`tab_data.get('total')` is truthy (present and non-empty), with the fixed
literal `総計` as the label cell and the same positional cell styling. -/
def renderTotalRow (total : Option (List String)) : String :=
  match total with
  | none => ""
  | some l =>
    if l.isEmpty then ""
    else
      "                        <tr class=\"total-row\">\n"
      ++ "                            <td>総計</td>\n"
      ++ renderDataCells l
      ++ "                        </tr>\n"

/-- One sheet panel (source lines 446-498).  The heading interpolates
`years[0]` and `years[-1]`; on an empty period list Python raises
IndexError, modelled by `none`. -/
def renderPanel (i : Nat) (tabName : String) (td : SheetData) : Option String := do
  let y0 ← td.years.head?
  let yn ← td.years.getLast?
  let activeClass := if i = 0 then "active" else ""
  return "        <!-- " ++ tabName ++ "タブ (" ++ tabName ++ " Tab) -->\n"
    ++ renderPanelOpen tabName activeClass
    ++ "            <h2>" ++ tabName ++ " 都道府県別補助金交付台数一覧表（" ++ y0 ++ "～" ++ yn ++ "年度）</h2>\n"
    ++ "            <div class=\"table-wrapper\">\n"
    ++ "                <table>\n"
    ++ "                    <thead>\n"
    ++ "                        <tr>\n"
    ++ "                            <th>都道府県</th>\n"
    ++ String.join (td.years.map renderYearHeader)
    ++ "                        </tr>\n"
    ++ "                    </thead>\n"
    ++ "                    <tbody>\n"
    ++ String.join (td.prefectures.map (fun p => renderDataRow p.1 p.2))
    ++ renderTotalRow td.total
    ++ "                    </tbody>\n"
    ++ "                </table>\n"
    ++ "            </div>\n"
    ++ "        </div>\n\n"

/-- The panel loop of `generate_html` (source lines 446-498), first panel
active. -/
def renderPanels : Nat → List (String × SheetData) → Option String
  | _, [] => some ""
  | i, (n, td) :: rest => do
    let s ← renderPanel i n td
    let r ← renderPanels (i + 1) rest
    return s ++ r

/-- `generate_html` (source lines 153-554) up to the document text: the
shell, the tab bar, the per-sheet panels and the embedded script, or `none`
when a panel heading raises IndexError.  The final file write and the
progress prints are outside the model. -/
def generate_html (data : List (String × SheetData))
    (pageTitle pageSubtitle jdate nendoWa nendo : String) : Option String := do
  let panels ← renderPanels 0 data
  return htmlHead pageTitle pageSubtitle jdate nendoWa nendo
    ++ renderTabButtons 0 (data.map Prod.fst)
    ++ "        </div>\n\n"
    ++ panels
    ++ scriptTail

/-- Outcome of one run of `main`:
usage text + `sys.exit(1)`, file-not-found + `sys.exit(1)`, or a successful
run with the chosen inputs, title and subtitle. -/
inductive MainResult where
  | usageExit
  | fileNotFound (excelFile : String)
  | success (excelFile outputFile pageTitle pageSubtitle : String)
  deriving DecidableEq

/-- The CLI entry point `main` (source lines 564-611), parameterised by
`sys.argv` (program name included) and the `Path(...).exists()` filesystem
test.  Fewer than three argv entries print usage and exit 1; otherwise
`argv[1]` / `argv[2]` are used (extra arguments are ignored) and the
title/subtitle pair is chosen from substrings of the output filename. -/
def main (argv : List String) (fileExists : String → Bool) : MainResult :=
  if argv.length < 3 then .usageExit
  else
    let excelFile := argv.getD 1 ""
    let outputFile := argv.getD 2 ""
    let ts : String × String :=
      if containsSub outputFile "koufu2" then
        ("都道府県別補助金交付状況", "外部給電器（V2L）･V2H充放電設備")
      else if containsSub outputFile "koufu3" then
        ("都道府県別補助金交付状況", "充電設備")
      else
        ("都道府県別補助金交付状況", "EV・PHEV・FCV・原付EV")
    if fileExists excelFile then .success excelFile outputFile ts.1 ts.2
    else .fileNotFound excelFile

/-- Value of a least-significant-first digit list (verification helper:
`digitsToNat l.reverse` computed without the reversal). -/
def valLSF (l : List Char) : Nat :=
  l.foldr (fun c a => a * 10 + (c.toNat - 48)) 0

/-- Modelled from the spec: "sanitized to a safe identifier token" — a
token is safe when it is nonempty and uses only ASCII letters, digits,
underscore or hyphen.  The source has no sanitization step; this predicate
is the spec-side notion used to compare against what the code emits. -/
def isSafeIdentToken (s : String) : Bool :=
  !s.isEmpty && s.data.all (fun c => c.isAlphanum || c = '_' || c = '-')

/-- A concrete worksheet whose total row is labelled `合計` (not `総計`). -/
def wsTot : Worksheet :=
  { maxRow := 3, maxCol := 3,
    cells := [[.vstr "都道府県", .vint 2009, .vstr "計"],
              [.vstr "北海道", .vint 1, .vint 2],
              [.vstr "合計", .vint 3, .vint 4]] }

/-- A concrete worksheet with an empty header cell inside the column range:
`max_column = 3` but header cell `(1,3)` is `None`, while the body row has a
value in column 3. -/
def wsC2 : Worksheet :=
  { maxRow := 2, maxCol := 3,
    cells := [[.vstr "都道府県", .vstr "2009", .vnone],
              [.vstr "北海道", .vint 1, .vint 2]] }

/-- A concrete sheet record whose periods are plain years with no total
marker in the final label. -/
def sheetC1 : SheetData :=
  { years := ["2009", "2010"],
    prefectures := [(.vstr "北海道", ["5", "6"])],
    total := none }

/-- A concrete sheet record with an empty period list. -/
def sheetNoYears : SheetData :=
  { years := [], prefectures := [], total := none }

/-! ### Helper lemmas about the string primitives -/

theorem chPre_append_self (p t : List Char) : chPre p (p ++ t) = true := by
  induction p with
  | nil => rfl
  | cons a as ih => simp [chPre, ih]

theorem chPre_append_both (a p q : List Char) :
    chPre (a ++ p) (a ++ q) = chPre p q := by
  induction a with
  | nil => rfl
  | cons c cs ih => simp [chPre, ih]

theorem chInfx_of_chPre {n h : List Char} (hp : chPre n h = true) :
    chInfx n h = true := by
  cases h with
  | nil => simpa [chInfx] using hp
  | cons b bs => simp [chInfx, hp]

theorem chInfx_append (a n b : List Char) : chInfx n (a ++ n ++ b) = true := by
  induction a with
  | nil => exact chInfx_of_chPre (chPre_append_self n b)
  | cons c cs ih =>
    have ih2 : chInfx n (cs ++ (n ++ b)) = true := by
      simpa [List.append_assoc] using ih
    simp [chInfx, ih2]

theorem strStartsWith_append (p t : String) : strStartsWith (p ++ t) p = true := by
  simpa [strStartsWith, String.data_append] using chPre_append_self p.data t.data

theorem containsSub_append (a n b : String) :
    containsSub (a ++ n ++ b) n = true := by
  simpa [containsSub, String.data_append] using chInfx_append a.data n.data b.data

/-- Claim C8: blank, null and empty-string cells always format to the fixed
placeholder `－` (both through `format_number` and through the cell loop of
`read_excel_data`), the placeholder is neither `"0"` nor empty, and the
placeholder given as input is returned unchanged. -/
theorem blank_placeholder_format :
    format_number .vnone = "－"
  ∧ format_number (.vstr "") = "－"
  ∧ format_number (.vstr "－") = "－"
  ∧ cellFormat .vnone = "－"
  ∧ cellFormat (.vstr "") = "－"
  ∧ cellFormat (.vstr "－") = "－"
  ∧ ("－" : String) ≠ "0"
  ∧ ("－" : String) ≠ "" := by
  refine ⟨by decide, by decide, by decide, by decide, by decide, by decide, by decide, by decide⟩

/-- Claim C3 (corrected): the renderer does not sanitize the sheet name; the
panel opening tag embeds the sheet name verbatim as the `id` attribute
value, so the emitted fragment identifier is whatever the sheet was named. -/
theorem panel_id_verbatim (name ac : String) :
    renderPanelOpen name ac
      = "        <div " ++ ("id=\"" ++ name ++ "\"")
          ++ (" class=\"tab-content " ++ ac ++ "\">\n")
  ∧ containsSub (renderPanelOpen name ac) ("id=\"" ++ name ++ "\"") = true := by
  have hA : ("        <div id=\"" : String).data
      = ("        <div " : String).data ++ ("id=\"" : String).data := by decide
  have hB : ("\" class=\"tab-content " : String).data
      = ("\"" : String).data ++ (" class=\"tab-content " : String).data := by decide
  have e : renderPanelOpen name ac
      = "        <div " ++ ("id=\"" ++ name ++ "\"")
          ++ (" class=\"tab-content " ++ ac ++ "\">\n") := by
    apply String.ext
    simp [renderPanelOpen, String.data_append, hA, hB, List.append_assoc]
  exact ⟨e, by rw [e]; exact containsSub_append _ _ _⟩

/-- Claim C3, counterexample to the claim as stated: the sheet name
`EV 台数` is not a safe identifier token, yet the renderer emits exactly it
as the panel's `id` attribute value — no sanitization happens. -/
theorem panel_id_unsanitized_cex :
    isSafeIdentToken "EV 台数" = false
  ∧ containsSub (renderPanelOpen "EV 台数" "active") "id=\"EV 台数\"" = true := by
  refine ⟨by decide, by decide⟩

/-- Claim C4 (corrected): `main` prints usage and exits 1 exactly when
`sys.argv` has fewer than three entries (program name plus fewer than two
positional arguments), and does so without consulting the filesystem; with
two or more positional arguments it proceeds, using only the first two and
ignoring the rest. -/
theorem argc_usage_exit (argv : List String) (fe : String → Bool) :
    (argv.length < 3 → main argv fe = .usageExit ∧ ∀ g, main argv g = .usageExit)
  ∧ (3 ≤ argv.length → main argv fe ≠ .usageExit
      ∧ main argv fe = main (argv.take 3) fe) := by
  constructor
  · intro h
    constructor
    · simp [main, h]
    · intro g; simp [main, h]
  · intro h
    have h3 : ¬ argv.length < 3 := by omega
    constructor
    · simp only [main, if_neg h3]
      split
      · intro hco; cases hco
      · intro hco; cases hco
    · have ht3 : ¬ (argv.take 3).length < 3 := by
        simp [List.length_take]; omega
      have g1 : (argv.take 3).getD 1 "" = argv.getD 1 "" := by
        simp [List.getD, List.getElem?_take, show (1:Nat) < 3 by omega]
      have g2 : (argv.take 3).getD 2 "" = argv.getD 2 "" := by
        simp [List.getD, List.getElem?_take, show (2:Nat) < 3 by omega]
      simp only [main, if_neg h3, if_neg ht3, g1, g2]

/-- Claim C4, witness: a one-entry argv exits with usage, a four-entry argv
behaves like its first three entries. -/
theorem argc_usage_exit_witness :
    main ["prog"] (fun _ => true) = .usageExit
  ∧ main ["prog", "a.xlsx", "b.html", "extra"] (fun _ => true)
      = main ["prog", "a.xlsx", "b.html"] (fun _ => true) := by
  refine ⟨((argc_usage_exit ["prog"] (fun _ => true)).1 (by decide)).1, ?_⟩
  exact ((argc_usage_exit ["prog", "a.xlsx", "b.html", "extra"] (fun _ => true)).2 (by decide)).2

/-- Claim C4, counterexample to the claim as stated: with three positional
arguments the program does not print usage and exit — it proceeds (and does
consult the filesystem: with a missing source file it reaches the
file-not-found branch). -/
theorem three_args_no_usage_cex :
    main ["prog", "a.xlsx", "b.html", "extra"] (fun _ => true) ≠ .usageExit
  ∧ main ["prog", "a.xlsx", "b.html", "extra"] (fun _ => false)
      = .fileNotFound "a.xlsx" := by
  refine ⟨by decide, by decide⟩

theorem chPre_iff (p l : List Char) : chPre p l = true ↔ p <+: l := by
  induction p generalizing l with
  | nil => simp [chPre]
  | cons a as ih =>
    cases l with
    | nil => simp [chPre]
    | cons b bs =>
      rw [List.cons_prefix_cons]
      by_cases hab : a = b <;> simp [chPre, hab, ih]

theorem chInfx_iff (n h : List Char) : chInfx n h = true ↔ n <:+: h := by
  induction h with
  | nil => simp [chInfx, chPre_iff]
  | cons b bs ih => simp [chInfx, chPre_iff, ih, List.infix_cons_iff]

theorem containsSub_iff (s n : String) :
    containsSub s n = true ↔ n.data <:+: s.data := chInfx_iff n.data s.data

theorem strStartsWith_iff (s p : String) :
    strStartsWith s p = true ↔ p.data <+: s.data := chPre_iff p.data s.data

/-- Claim C10: whenever the renderer emits an aggregate row, the output up
to and including the label cell is a fixed constant whose label is the
literal `総計` — the values and the matched source label (which the
renderer never reads) cannot change it. -/
theorem total_row_label_fixed (l : List String) (h : l ≠ []) :
    strStartsWith (renderTotalRow (some l))
      ("                        <tr class=\"total-row\">\n"
        ++ "                            <td>総計</td>\n") = true
  ∧ containsSub (renderTotalRow (some l)) "<td>総計</td>" = true := by
  have hne : l.isEmpty = false := by simp [List.isEmpty_iff, h]
  have e : renderTotalRow (some l)
      = ("                        <tr class=\"total-row\">\n"
          ++ "                            <td>総計</td>\n")
        ++ (renderDataCells l ++ "                        </tr>\n") := by
    simp [renderTotalRow, hne, String.append_assoc]
  constructor
  · rw [e]; exact strStartsWith_append _ _
  · rw [e, containsSub_iff]
    have h1 : ("<td>総計</td>" : String).data <:+:
        ("                        <tr class=\"total-row\">\n"
          ++ "                            <td>総計</td>\n" : String).data := by
      rw [← containsSub_iff]; decide
    exact h1.trans (by rw [String.data_append]; exact (List.prefix_append _ _).isInfix)

/-- Claim C10, witness: a worksheet whose matching source row is labelled
`合計` still renders its aggregate row with the fixed label `総計` (and the
source label `合計` appears nowhere in the rendered row). -/
theorem total_row_label_fixed_witness :
    (readSheet wsTot).total = some ["3", "4"]
  ∧ containsSub (renderTotalRow (some ["3", "4"])) "<td>総計</td>" = true
  ∧ containsSub (renderTotalRow (some ["3", "4"])) "<td>合計</td>" = false := by
  refine ⟨by decide, (total_row_label_fixed ["3", "4"] (by decide)).2, by decide⟩

/-- If some entry of the list has an empty period list, the panel loop
fails (IndexError modelled as `none`), whatever the starting index. -/
theorem renderPanels_none {l : List (String × SheetData)}
    (h : ∃ p ∈ l, p.2.years = []) : ∀ i, renderPanels i l = none := by
  induction l with
  | nil => rcases h with ⟨p, hp, _⟩; cases hp
  | cons hd tl ih =>
    obtain ⟨n, td⟩ := hd
    intro i
    rcases h with ⟨p, hp, hy⟩
    rcases List.mem_cons.mp hp with heq | htl
    · subst heq
      have hy2 : td.years = [] := hy
      simp [renderPanels, renderPanel, hy2]
    · have ih2 := ih ⟨p, htl, hy⟩ (i + 1)
      simp only [renderPanels]
      cases hrp : renderPanel i n td <;> simp [hrp, ih2]

/-- Claim C9: if any sheet's period list is empty, `generate_html` fails
with the IndexError raised while building that sheet's panel heading
(`years[0]` / `years[-1]`), instead of returning a document. -/
theorem empty_years_indexerror (data : List (String × SheetData))
    (pt ps jd nw nd : String) (h : ∃ p ∈ data, p.2.years = []) :
    generate_html data pt ps jd nw nd = none := by
  simp [generate_html, renderPanels_none h 0]

/-- Claim C9, witness: a one-sheet input whose period list is empty yields
no document. -/
theorem empty_years_indexerror_witness :
    generate_html [("Sheet1", sheetNoYears)] "t" "s" "a" "b" "c" = none :=
  empty_years_indexerror _ _ _ _ _ _ ⟨("Sheet1", sheetNoYears), by simp, rfl⟩

/-! ### Digit and grouping lemmas -/

theorem digitChar_isDigit : ∀ m : Nat, m < 10 → (Nat.digitChar m).isDigit = true := by decide

theorem digitChar_toNat : ∀ m : Nat, m < 10 → (Nat.digitChar m).toNat = 48 + m := by decide

theorem natDigitsRevAux_mem (fuel : Nat) :
    ∀ n c, c ∈ natDigitsRevAux fuel n → c.isDigit = true := by
  induction fuel with
  | zero => intro n c hc; simp [natDigitsRevAux] at hc
  | succ f ih =>
    intro n c hc
    by_cases h : n < 10
    · simp [natDigitsRevAux, h] at hc
      subst hc
      exact digitChar_isDigit n h
    · simp [natDigitsRevAux, h] at hc
      rcases hc with hc | hc
      · subst hc; exact digitChar_isDigit _ (Nat.mod_lt _ (by omega))
      · exact ih _ _ hc

theorem valLSF_natDigitsRevAux (fuel : Nat) :
    ∀ n, n < 10 ^ fuel → valLSF (natDigitsRevAux fuel n) = n := by
  induction fuel with
  | zero =>
    intro n hn
    have h0 : n = 0 := by simpa using hn
    subst h0; rfl
  | succ f ih =>
    intro n hn
    by_cases h : n < 10
    · have htn := digitChar_toNat n h
      simp [natDigitsRevAux, h, valLSF, htn]
    · have hd : n / 10 < 10 ^ f := by
        rw [Nat.div_lt_iff_lt_mul (by omega)]
        calc n < 10 ^ (f + 1) := hn
          _ = 10 ^ f * 10 := by ring
      have hmod := digitChar_toNat (n % 10) (Nat.mod_lt _ (by omega))
      have hrec := ih (n / 10) hd
      simp only [valLSF] at hrec
      simp only [natDigitsRevAux, h, if_neg, ite_false, valLSF, List.foldr_cons, hrec, hmod]
      omega

theorem valLSF_natDigitsRev (n : Nat) : valLSF (natDigitsRev n) = n := by
  have h1 : n < 10 ^ n := Nat.lt_pow_self (by norm_num) n
  have h2 : (10 : Nat) ^ n ≤ 10 ^ (n + 1) :=
    Nat.pow_le_pow_right (by norm_num) (Nat.le_succ n)
  exact valLSF_natDigitsRevAux (n + 1) n (lt_of_lt_of_le h1 h2)

theorem digitsToNat_reverse (l : List Char) : digitsToNat l.reverse = valLSF l := by
  simp [digitsToNat, valLSF, List.foldl_reverse]

theorem groupChunksRev_mem (l : List Char) :
    ∀ c, c ∈ groupChunksRev l → c ∈ l ∨ c = ',' := by
  induction l using groupChunksRev.induct with
  | case1 a b c d rest ih =>
    intro x hx
    simp only [groupChunksRev, List.mem_cons] at hx
    rcases hx with hx | hx | hx | hx | hx
    · exact Or.inl (by simp [hx])
    · exact Or.inl (by simp [hx])
    · exact Or.inl (by simp [hx])
    · exact Or.inr hx
    · rcases ih x hx with h1 | h1
      · exact Or.inl (by simp at h1 ⊢; tauto)
      · exact Or.inr h1
  | case2 l h =>
    intro x hx
    rcases l with _ | ⟨a, _ | ⟨b, _ | ⟨c, _ | ⟨d, rest⟩⟩⟩⟩
    · simp [groupChunksRev] at hx
    · simp only [groupChunksRev] at hx; exact Or.inl hx
    · simp only [groupChunksRev] at hx; exact Or.inl hx
    · simp only [groupChunksRev] at hx; exact Or.inl hx
    · exact absurd rfl (h a b c d rest)

theorem groupChunksRev_filter (l : List Char) (hl : ∀ c ∈ l, c.isDigit = true) :
    (groupChunksRev l).filter Char.isDigit = l := by
  have hcomma : (',' : Char).isDigit = false := by decide
  induction l using groupChunksRev.induct with
  | case1 a b c d rest ih =>
    have ha : a.isDigit = true := hl a (by simp)
    have hb : b.isDigit = true := hl b (by simp)
    have hc : c.isDigit = true := hl c (by simp)
    have hrest : ∀ x ∈ d :: rest, x.isDigit = true := by
      intro x hx; exact hl x (by simp at hx ⊢; tauto)
    simp [groupChunksRev, List.filter_cons, ha, hb, hc, hcomma, ih hrest]
  | case2 l h =>
    rcases l with _ | ⟨a, _ | ⟨b, _ | ⟨c, _ | ⟨d, rest⟩⟩⟩⟩
    · simp [groupChunksRev]
    · simp [groupChunksRev, List.filter_cons, hl a (by simp)]
    · simp [groupChunksRev, List.filter_cons, hl a (by simp), hl b (by simp)]
    · simp [groupChunksRev, List.filter_cons, hl a (by simp), hl b (by simp), hl c (by simp)]
    · exact absurd rfl (h a b c d rest)

theorem groupNat_mem (n : Nat) (c : Char) :
    c ∈ (groupNat n).data → c.isDigit = true ∨ c = ',' := by
  intro hc
  have h1 : c ∈ (groupChunksRev (natDigitsRev n)).reverse := hc
  rw [List.mem_reverse] at h1
  rcases groupChunksRev_mem _ c h1 with h | h
  · exact Or.inl (natDigitsRevAux_mem _ _ _ h)
  · exact Or.inr h

theorem groupNat_val (n : Nat) :
    digitsToNat ((groupNat n).data.filter Char.isDigit) = n := by
  have hl : ∀ c ∈ natDigitsRev n, c.isDigit = true :=
    fun c hc => natDigitsRevAux_mem _ _ c hc
  show digitsToNat (((groupChunksRev (natDigitsRev n)).reverse).filter Char.isDigit) = n
  rw [List.filter_reverse, groupChunksRev_filter _ hl, digitsToNat_reverse]
  exact valLSF_natDigitsRev n

theorem fmtInt_mem (i : ℤ) (c : Char) :
    c ∈ (fmtInt i).data → c.isDigit = true ∨ c = ',' ∨ c = '-' := by
  unfold fmtInt
  split
  · intro hc
    rw [String.data_append] at hc
    rcases List.mem_append.mp hc with hc | hc
    · right; right; simpa using hc
    · rcases groupNat_mem _ _ hc with h | h
      · exact Or.inl h
      · exact Or.inr (Or.inl h)
  · intro hc
    rcases groupNat_mem _ _ hc with h | h
    · exact Or.inl h
    · exact Or.inr (Or.inl h)

theorem fmtInt_no_dot (i : ℤ) : '.' ∉ (fmtInt i).data := by
  intro hc
  rcases fmtInt_mem i '.' hc with h | h | h
  · exact absurd h (by decide)
  · exact absurd h (by decide)
  · exact absurd h (by decide)

theorem fmtInt_val (i : ℤ) :
    digitsToNat ((fmtInt i).data.filter Char.isDigit) = i.natAbs := by
  unfold fmtInt
  split
  · rw [String.data_append, List.filter_append]
    have h0 : ("-" : String).data.filter Char.isDigit = [] := by decide
    rw [h0, List.nil_append]
    exact groupNat_val _
  · exact groupNat_val _

/-- Claim C7: a numeric cell whose value is mathematically an integer
formats as its decimal digits grouped in threes by commas and nothing else:
no decimal point appears, every character is a digit, a comma or a sign,
and the digit content reads back to exactly the cell's absolute value. -/
theorem integral_format_grouped (q : ℚ) (i : ℤ) (hq : q.den = 1) :
    format_number (.vfloat q) = fmtInt q.num
  ∧ format_number (.vint i) = fmtInt i
  ∧ '.' ∉ (fmtInt q.num).data
  ∧ (∀ c ∈ (fmtInt i).data, c.isDigit = true ∨ c = ',' ∨ c = '-')
  ∧ digitsToNat ((fmtInt i).data.filter Char.isDigit) = i.natAbs
  ∧ '.' ∉ (fmtInt i).data := by
  refine ⟨?_, ?_, fmtInt_no_dot _, fun c hc => fmtInt_mem i c hc, fmtInt_val i,
    fmtInt_no_dot _⟩
  · simp [format_number, fmtParsed, hq]
  · have hcast : mkRat i 1 = (i : ℚ) := Rat.mkRat_one i
    simp [format_number, fmtParsed, hcast, Rat.den_intCast, Rat.num_intCast]

/-- Claim C7, witness at the spec's example `1234567 → "1,234,567"`. -/
theorem integral_format_grouped_witness :
    (mkRat 1234567 1).den = 1
  ∧ format_number (.vint 1234567) = fmtInt 1234567
  ∧ format_number (.vint 1234567) = "1,234,567" := by
  exact ⟨by decide,
    (integral_format_grouped (mkRat 1234567 1) 1234567 (by decide)).2.1,
    by decide⟩

/-- Claim C6: a numeric cell with a non-zero fractional part formats as a
grouped-digit integer part, a decimal point and exactly one decimal digit;
the decimal digit and the integer part carry the value rounded to one place
(round-half-even on the exact rational, modelling Python's `%.1f`). -/
theorem fractional_format_one_decimal (q : ℚ) (h : q.den ≠ 1) :
    ∃ t d, format_number (.vfloat q) = t ++ "." ++ String.singleton d
      ∧ d.isDigit = true
      ∧ '.' ∉ t.data
      ∧ (∀ c ∈ t.data, c.isDigit = true ∨ c = ',' ∨ c = '-')
      ∧ digitsToNat (t.data.filter Char.isDigit)
          = (roundHalfEven (ratMul (mkRat 10 1) (ratAbs q))).toNat / 10
      ∧ d.toNat = 48 + (roundHalfEven (ratMul (mkRat 10 1) (ratAbs q))).toNat % 10 := by
  have e : format_number (.vfloat q) = fmtOneDec q := by
    simp [format_number, fmtParsed, h]
  refine ⟨(if q.num < 0 then "-" else "")
      ++ groupNat ((roundHalfEven (ratMul (mkRat 10 1) (ratAbs q))).toNat / 10),
    Nat.digitChar ((roundHalfEven (ratMul (mkRat 10 1) (ratAbs q))).toNat % 10),
    ?_, ?_, ?_, ?_, ?_, ?_⟩
  · rw [e]; rfl
  · exact digitChar_isDigit _ (Nat.mod_lt _ (by omega))
  · intro hc
    rw [String.data_append] at hc
    rcases List.mem_append.mp hc with hc | hc
    · by_cases hq0 : q.num < 0 <;> simp [hq0] at hc
    · rcases groupNat_mem _ _ hc with h1 | h1
      · exact absurd h1 (by decide)
      · exact absurd h1 (by decide)
  · intro c hc
    rw [String.data_append] at hc
    rcases List.mem_append.mp hc with hc | hc
    · by_cases hq0 : q.num < 0 <;> simp [hq0] at hc
      · exact Or.inr (Or.inr hc)
    · rcases groupNat_mem _ _ hc with h1 | h1
      · exact Or.inl h1
      · exact Or.inr (Or.inl h1)
  · rw [String.data_append, List.filter_append]
    have h0 : ((if q.num < 0 then "-" else "") : String).data.filter Char.isDigit = [] := by
      by_cases hq0 : q.num < 0 <;> simp [hq0]
    rw [h0, List.nil_append]
    exact groupNat_val _
  · exact digitChar_toNat _ (Nat.mod_lt _ (by omega))

/-- Claim C6, witness at the spec's example `1234.56 → "1,234.6"`. -/
theorem fractional_format_one_decimal_witness :
    (mkRat 123456 100).den ≠ 1
  ∧ (∃ t d, format_number (.vfloat (mkRat 123456 100)) = t ++ "." ++ String.singleton d
      ∧ d.isDigit = true
      ∧ '.' ∉ t.data
      ∧ (∀ c ∈ t.data, c.isDigit = true ∨ c = ',' ∨ c = '-')
      ∧ digitsToNat (t.data.filter Char.isDigit)
          = (roundHalfEven (ratMul (mkRat 10 1) (ratAbs (mkRat 123456 100)))).toNat / 10
      ∧ d.toNat = 48 + (roundHalfEven (ratMul (mkRat 10 1) (ratAbs (mkRat 123456 100)))).toNat % 10)
  ∧ format_number (.vfloat (mkRat 123456 100)) = "1,234.6" := by
  exact ⟨by decide, fractional_format_one_decimal (mkRat 123456 100) (by decide), by decide⟩

/-! ### Loader lemmas -/

theorem getLast?_cons {α : Type _} (a : α) (l : List α) :
    (a :: l).getLast? = match l.getLast? with
      | some x => some x
      | none => some a := by
  cases l with
  | nil => rfl
  | cons b t =>
    cases h : (b :: t).getLast? with
    | none =>
      exact absurd h (by simp [List.getLast?_eq_none_iff])
    | some x =>
      simp [List.getLast?_cons_cons, h]

theorem dictInsert_keys (k : CellValue) (v : List String)
    (l : List (CellValue × List String)) (p : CellValue × List String)
    (hp : p ∈ dictInsert k v l) : p.1 = k ∨ p.1 ∈ l.map Prod.fst := by
  induction l with
  | nil =>
    simp [dictInsert] at hp
    subst hp; exact Or.inl rfl
  | cons hd tl ih =>
    obtain ⟨k2, v2⟩ := hd
    by_cases he : pyEq k2 k = true
    · simp [dictInsert, he] at hp
      rcases hp with hp | hp
      · subst hp; exact Or.inr (by simp)
      · exact Or.inr (by simp; exact Or.inr ⟨p.2, hp⟩)
    · simp [dictInsert, he] at hp
      rcases hp with hp | hp
      · subst hp; exact Or.inr (by simp)
      · rcases ih hp with h1 | h1
        · exact Or.inl h1
        · exact Or.inr (by simp at h1 ⊢; tauto)

theorem dictInsert_vals (k : CellValue) (v : List String)
    (l : List (CellValue × List String)) (p : CellValue × List String)
    (hp : p ∈ dictInsert k v l) : p.2 = v ∨ p ∈ l := by
  induction l with
  | nil =>
    simp [dictInsert] at hp
    subst hp; exact Or.inl rfl
  | cons hd tl ih =>
    obtain ⟨k2, v2⟩ := hd
    by_cases he : pyEq k2 k = true
    · simp [dictInsert, he] at hp
      rcases hp with hp | hp
      · subst hp; exact Or.inl rfl
      · exact Or.inr (by simp [hp])
    · simp [dictInsert, he] at hp
      rcases hp with hp | hp
      · subst hp; exact Or.inr (by simp)
      · rcases ih hp with h1 | h1
        · exact Or.inl h1
        · exact Or.inr (by simp [h1])

theorem rowValues_length (ws : Worksheet) (r : Nat) :
    (rowValues ws r).length = ws.maxCol - 1 := by
  simp [rowValues]

theorem readRowsAux_total (ws : Worksheet) :
    ∀ (rs : List Nat) (prefs : List (CellValue × List String))
      (total : Option (List String)),
    (readRowsAux ws rs prefs total).2
      = (match ((extractedRows ws rs).filter (fun p => isTotalLabel p.1)).getLast? with
         | some p => some p.2
         | none => total) := by
  intro rs
  induction rs with
  | nil => intro prefs total; rfl
  | cons r rest ih =>
    intro prefs total
    by_cases ht : truthy (ws.cell r 1) = true
    · by_cases hl : isTotalLabel (ws.cell r 1) = true
      · have e1 : readRowsAux ws (r :: rest) prefs total
            = readRowsAux ws rest prefs (some (rowValues ws r)) := by
          simp [readRowsAux, ht, hl]
        have e2 : extractedRows ws (r :: rest)
            = (ws.cell r 1, rowValues ws r) :: extractedRows ws rest := by
          simp [extractedRows, List.filterMap_cons, ht]
        rw [e1, ih, e2, List.filter_cons_of_pos (by simpa using hl), getLast?_cons]
        cases h : ((extractedRows ws rest).filter (fun p => isTotalLabel p.1)).getLast? with
        | none => simp
        | some x => simp
      · have e1 : readRowsAux ws (r :: rest) prefs total
            = readRowsAux ws rest (dictInsert (ws.cell r 1) (rowValues ws r) prefs) total := by
          simp [readRowsAux, ht, hl]
        have e2 : extractedRows ws (r :: rest)
            = (ws.cell r 1, rowValues ws r) :: extractedRows ws rest := by
          simp [extractedRows, List.filterMap_cons, ht]
        rw [e1, ih, e2, List.filter_cons_of_neg (by simpa using hl)]
    · have ht2 : truthy (ws.cell r 1) = false := by
        simpa using ht
      have e1 : readRowsAux ws (r :: rest) prefs total
          = readRowsAux ws rest prefs total := by
        simp [readRowsAux, ht2]
      have e2 : extractedRows ws (r :: rest) = extractedRows ws rest := by
        simp [extractedRows, List.filterMap_cons, ht2]
      rw [e1, ih, e2]

theorem readRowsAux_keys_not_total (ws : Worksheet) :
    ∀ (rs : List Nat) (prefs : List (CellValue × List String))
      (total : Option (List String)),
    (∀ p ∈ prefs, isTotalLabel p.1 = false) →
    ∀ p ∈ (readRowsAux ws rs prefs total).1, isTotalLabel p.1 = false := by
  intro rs
  induction rs with
  | nil => intro prefs total hinv p hp; exact hinv p hp
  | cons r rest ih =>
    intro prefs total hinv p hp
    by_cases ht : truthy (ws.cell r 1) = true
    · by_cases hl : isTotalLabel (ws.cell r 1) = true
      · rw [show readRowsAux ws (r :: rest) prefs total
            = readRowsAux ws rest prefs (some (rowValues ws r)) from by
          simp [readRowsAux, ht, hl]] at hp
        exact ih prefs _ hinv p hp
      · have hl2 : isTotalLabel (ws.cell r 1) = false := by simpa using hl
        rw [show readRowsAux ws (r :: rest) prefs total
            = readRowsAux ws rest (dictInsert (ws.cell r 1) (rowValues ws r) prefs) total from by
          simp [readRowsAux, ht, hl]] at hp
        refine ih _ total ?_ p hp
        intro q hq
        rcases dictInsert_keys _ _ _ q hq with h1 | h1
        · rw [h1]; exact hl2
        · rcases List.mem_map.mp h1 with ⟨w, hw, hw2⟩
          rw [← hw2]; exact hinv w hw
    · have ht2 : truthy (ws.cell r 1) = false := by simpa using ht
      rw [show readRowsAux ws (r :: rest) prefs total
          = readRowsAux ws rest prefs total from by simp [readRowsAux, ht2]] at hp
      exact ih prefs total hinv p hp

theorem readRowsAux_len (ws : Worksheet) :
    ∀ (rs : List Nat) (prefs : List (CellValue × List String))
      (total : Option (List String)),
    (∀ p ∈ prefs, p.2.length = ws.maxCol - 1) →
    (∀ t, total = some t → t.length = ws.maxCol - 1) →
    (∀ p ∈ (readRowsAux ws rs prefs total).1, p.2.length = ws.maxCol - 1)
    ∧ (∀ t, (readRowsAux ws rs prefs total).2 = some t → t.length = ws.maxCol - 1) := by
  intro rs
  induction rs with
  | nil => intro prefs total h1 h2; exact ⟨h1, h2⟩
  | cons r rest ih =>
    intro prefs total h1 h2
    by_cases ht : truthy (ws.cell r 1) = true
    · by_cases hl : isTotalLabel (ws.cell r 1) = true
      · rw [show readRowsAux ws (r :: rest) prefs total
            = readRowsAux ws rest prefs (some (rowValues ws r)) from by
          simp [readRowsAux, ht, hl]]
        refine ih prefs _ h1 ?_
        intro t htt
        rw [show t = rowValues ws r from by simpa using htt.symm]
        exact rowValues_length ws r
      · rw [show readRowsAux ws (r :: rest) prefs total
            = readRowsAux ws rest (dictInsert (ws.cell r 1) (rowValues ws r) prefs) total from by
          simp [readRowsAux, ht, hl]]
        refine ih _ total ?_ h2
        intro q hq
        rcases dictInsert_vals _ _ _ q hq with hv | hv
        · rw [hv]; exact rowValues_length ws r
        · exact h1 q hv
    · have ht2 : truthy (ws.cell r 1) = false := by simpa using ht
      rw [show readRowsAux ws (r :: rest) prefs total
          = readRowsAux ws rest prefs total from by simp [readRowsAux, ht2]]
      exact ih prefs total h1 h2

theorem sheetYears_length_of_truthy (ws : Worksheet)
    (h : ∀ c ∈ List.range' 2 (ws.maxCol - 1), truthy (ws.cell 1 c) = true) :
    (sheetYears ws).length = ws.maxCol - 1 := by
  have key : ∀ l : List Nat, (∀ c ∈ l, truthy (ws.cell 1 c) = true) →
      (l.filterMap (fun c =>
        if truthy (ws.cell 1 c) then some (pyStr (ws.cell 1 c)) else none)).length
      = l.length := by
    intro l
    induction l with
    | nil => intro _; rfl
    | cons c cs ih =>
      intro hl
      simp only [List.filterMap_cons, hl c (by simp), if_pos, List.length_cons]
      rw [ih (fun x hx => hl x (by simp [hx]))]
  show (List.filterMap _ (List.range' 2 (ws.maxCol - 1))).length = ws.maxCol - 1
  rw [key _ h, List.length_range']

/-- Claim C5: the body loop stores a row whose first-column label contains
either total marker as the sheet's aggregate row — the last matching row
wins — and never inserts such a row into the rows mapping: the aggregate
row equals the last marker-labelled extracted row's values, and no key of
the rows mapping matches a marker. -/
theorem total_row_detection (ws : Worksheet) :
    (readSheet ws).total
      = Option.map Prod.snd
          (((extractedRows ws (List.range' 2 (ws.maxRow - 1))).filter
              (fun p => isTotalLabel p.1)).getLast?)
  ∧ ∀ p ∈ (readSheet ws).prefectures, isTotalLabel p.1 = false := by
  constructor
  · rw [show (readSheet ws).total
        = (readRowsAux ws (List.range' 2 (ws.maxRow - 1)) [] none).2 from rfl,
      readRowsAux_total ws (List.range' 2 (ws.maxRow - 1)) [] none]
    cases h : ((extractedRows ws (List.range' 2 (ws.maxRow - 1))).filter
        (fun p => isTotalLabel p.1)).getLast? with
    | none => simp
    | some x => simp
  · intro p hp
    exact readRowsAux_keys_not_total ws (List.range' 2 (ws.maxRow - 1)) [] none
      (by simp) p hp

/-- Claim C5, witness: in the concrete sheet `wsTot` the row labelled
`合計` becomes the aggregate row and the rows mapping holds only
non-matching labels. -/
theorem total_row_detection_witness :
    (readSheet wsTot).total
      = Option.map Prod.snd
          (((extractedRows wsTot (List.range' 2 (wsTot.maxRow - 1))).filter
              (fun p => isTotalLabel p.1)).getLast?)
  ∧ isTotalLabel (CellValue.vstr "北海道") = false := by
  refine ⟨(total_row_detection wsTot).1, ?_⟩
  exact (total_row_detection wsTot).2 (CellValue.vstr "北海道", ["1", "2"]) (by decide)

/-- Claim C2 (corrected): every extracted row's value sequence and the
aggregate row (when present) have length `max_column - 1`; the periods list
has that same length exactly when every header cell in columns
`2 .. max_column` is non-empty (truthy), since empty header cells are
skipped while data cells are not. -/
theorem row_length_invariant (ws : Worksheet) :
    (∀ p ∈ (readSheet ws).prefectures, p.2.length = ws.maxCol - 1)
  ∧ (∀ t, (readSheet ws).total = some t → t.length = ws.maxCol - 1)
  ∧ ((∀ c ∈ List.range' 2 (ws.maxCol - 1), truthy (ws.cell 1 c) = true) →
      (readSheet ws).years.length = ws.maxCol - 1) := by
  have h := readRowsAux_len ws (List.range' 2 (ws.maxRow - 1)) [] none
    (by simp) (by simp)
  exact ⟨h.1, h.2, fun hc => sheetYears_length_of_truthy ws hc⟩

/-- Claim C2, witness: on `wsTot` all header cells are truthy, so rows,
aggregate row and periods all have length `max_column - 1 = 2`. -/
theorem row_length_invariant_witness :
    (readSheet wsTot).years.length = wsTot.maxCol - 1
  ∧ (["3", "4"] : List String).length = wsTot.maxCol - 1 := by
  refine ⟨(row_length_invariant wsTot).2.2 (by decide), ?_⟩
  exact (row_length_invariant wsTot).2.1 ["3", "4"] (by decide)

/-- Claim C2, counterexample to the claim as stated: in `wsC2` the header
cell `(1,3)` is empty while the body row has a value in column 3, so the
row's value sequence has length 2 but the periods list has length 1. -/
theorem row_length_ne_years_cex :
    ¬ (∀ p ∈ (readSheet wsC2).prefectures,
        p.2.length = (readSheet wsC2).years.length) := by
  decide

/-! ### Renderer cell-styling lemmas -/

theorem chPre_ne_head (common p q : List Char) (a b : Char) (hab : a ≠ b) :
    chPre (common ++ a :: p) (common ++ b :: q) = false := by
  induction common with
  | nil => simp [chPre, hab]
  | cons c cs ih => simp [chPre, ih]

theorem strStartsWith_tdTotal (v : String) :
    strStartsWith (tdTotal v)
      "                            <td class=\"total-col\">" = true := by
  simp only [tdTotal]
  rw [String.append_assoc]
  exact strStartsWith_append _ _

theorem strStartsWith_tdPlain (v : String) :
    strStartsWith (tdPlain v)
      "                            <td class=\"total-col\">" = false := by
  have h1 : ("                            <td class=\"total-col\">" : String).data
      = ("                            <td" : String).data
        ++ ' ' :: ("class=\"total-col\">" : String).data := by decide
  have h3 : ("                            <td>" : String).data
      = ("                            <td" : String).data ++ ['>'] := by decide
  have h2 : (tdPlain v).data
      = ("                            <td" : String).data
        ++ '>' :: (v ++ "</td>\n").data := by
    simp [tdPlain, String.data_append, h3]
  show chPre _ _ = false
  rw [h1, h2]
  exact chPre_ne_head _ _ _ _ _ (by decide)

theorem strStartsWith_thTotal (v : String) :
    strStartsWith (thTotal v)
      "                            <th class=\"total-col\">" = true := by
  simp only [thTotal]
  rw [String.append_assoc]
  exact strStartsWith_append _ _

theorem strStartsWith_thPlain (v : String) :
    strStartsWith (thPlain v)
      "                            <th class=\"total-col\">" = false := by
  have h1 : ("                            <th class=\"total-col\">" : String).data
      = ("                            <th" : String).data
        ++ ' ' :: ("class=\"total-col\">" : String).data := by decide
  have h3 : ("                            <th>" : String).data
      = ("                            <th" : String).data ++ ['>'] := by decide
  have h2 : (thPlain v).data
      = ("                            <th" : String).data
        ++ '>' :: (v ++ "</th>\n").data := by
    simp [thPlain, String.data_append, h3]
  show chPre _ _ = false
  rw [h1, h2]
  exact chPre_ne_head _ _ _ _ _ (by decide)

theorem dataCellsAux_length (t : Nat) :
    ∀ (l : List String) (j0 : Nat), (dataCellsAux t j0 l).length = l.length := by
  intro l
  induction l with
  | nil => intro j0; rfl
  | cons v rest ih => intro j0; simp [dataCellsAux, ih]

theorem dataCellsAux_getD (t : Nat) :
    ∀ (l : List String) (j0 k : Nat), k < l.length →
    (dataCellsAux t j0 l).getD k ""
      = if j0 + k = t - 1 then tdTotal (l.getD k "") else tdPlain (l.getD k "") := by
  intro l
  induction l with
  | nil => intro j0 k hk; simp at hk
  | cons v rest ih =>
    intro j0 k hk
    cases k with
    | zero => simp [dataCellsAux]
    | succ k2 =>
      have hk2 : k2 < rest.length := by simpa using hk
      simp only [dataCellsAux, List.getD_cons_succ]
      rw [ih (j0 + 1) k2 hk2]
      have he : j0 + 1 + k2 = j0 + (k2 + 1) := by omega
      rw [he]

/-- Claim C1 (corrected): among the rendered body cells of a row, exactly
the cell at the final index carries the aggregate-column class — body-cell
styling is purely positional — while a period's header cell carries the
class iff its label contains `計`, independent of its position. -/
theorem aggregate_col_class (y : String) (vals : List String) (j : Nat)
    (hj : j < vals.length) :
    strStartsWith (renderYearHeader y)
        "                            <th class=\"total-col\">" = containsSub y "計"
  ∧ strStartsWith ((dataCellsList vals).getD j "")
        "                            <td class=\"total-col\">"
      = decide (j = vals.length - 1)
  ∧ (dataCellsList vals).length = vals.length := by
  refine ⟨?_, ?_, dataCellsAux_length _ _ _⟩
  · by_cases hk : containsSub y "計" = true
    · have e : renderYearHeader y = thTotal y := by simp [renderYearHeader, hk]
      rw [e, hk, strStartsWith_thTotal]
    · have hk2 : containsSub y "計" = false := by simpa using hk
      have he : y ≠ "計" := by
        intro hy
        subst hy
        exact absurd (by decide : containsSub "計" "計" = true) (by simp [hk2])
      have e : renderYearHeader y = thPlain y := by
        simp [renderYearHeader, hk2, he]
      rw [e, hk2, strStartsWith_thPlain]
  · rw [show dataCellsList vals = dataCellsAux vals.length 0 vals from rfl,
      dataCellsAux_getD vals.length vals 0 j hj]
    by_cases hj2 : j = vals.length - 1
    · have hc : 0 + j = vals.length - 1 := by omega
      rw [if_pos hc, strStartsWith_tdTotal]
      simp [hj2]
    · have hc : ¬ (0 + j = vals.length - 1) := by omega
      rw [if_neg hc, strStartsWith_tdPlain]
      simp [hj2]

/-- Claim C1, witness: for a period actually labelled `計` the header cell
carries the class, and in a two-cell row the cell at index 1 carries the
class. -/
theorem aggregate_col_class_witness :
    strStartsWith (renderYearHeader "計")
        "                            <th class=\"total-col\">" = containsSub "計" "計"
  ∧ strStartsWith ((dataCellsList ["5", "6"]).getD 1 "")
        "                            <td class=\"total-col\">"
      = decide (1 = (["5", "6"] : List String).length - 1) := by
  exact ⟨(aggregate_col_class "計" ["5", "6"] 1 (by decide)).1,
    (aggregate_col_class "計" ["5", "6"] 1 (by decide)).2.1⟩

/-- Claim C1, counterexample to the claim as stated: the sheet `sheetC1`
is rendered by `generate_html` (its period list is nonempty), its final
period is labelled `2010`, and the header cell emitted for that final
period carries no aggregate-column class — the class would require the
label to contain `計`. -/
theorem last_header_cell_no_class_cex :
    (generate_html [("Sheet1", sheetC1)] "t" "s" "d1" "d2" "d3").isSome = true
  ∧ (sheetC1.years.map renderYearHeader).getLast? = some (renderYearHeader "2010")
  ∧ containsSub (renderYearHeader "2010") "total-col" = false := by
  refine ⟨rfl, by decide, by decide⟩

end Toukei
